import Mathlib

/-!
Shallow embedding of `generate_changelog.py` (repository shaman007/changegen):
an AI-changelog generator that walks a Git repository's history, extracts a
parent→commit diff per commit, sends it to a chat-completion endpoint and
assembles the returned summaries into a Markdown document.

External effects (git plumbing, the HTTP API, the filesystem) are embedded as
explicit data carried by the inputs:
  * a `Commit` record holds the metadata the script reads from GitPython
    (`hexsha`, `author.name`, formatted commit date, parent count), the result
    of `commit.stats.files` (`none` models the call raising), the result of
    `diff_text_parent_to_commit` (`Except.error` models the call raising), and
    the chat-completion endpoint's response as a function of the model name
    and the rendered user prompt (`Except.error` models the API call raising);
  * `ensure_repo`'s filesystem probes and git operations are a `RepoEnv`
    record of their outcomes.
Python string slicing `s[:n]` is embedded character-wise (`py_slice`), and
`"sep".join(xs)` as `join_with sep xs`.
-/

/-- A commit as the script observes it through GitPython, together with the
outcomes of the two effectful per-commit operations. `committed_date` is the
raw `committed_date` epoch timestamp (used only for ordering facts);
`date_utc` is `commit_datetime_utc(c).strftime("%Y-%m-%d")`. `stats = none`
models `commit.stats.files` raising; `diff = Except.error e` models
`diff_text_parent_to_commit` raising `e`; `api model prompt` is the
chat-completion endpoint's response to the rendered user prompt. -/
structure Commit where
  hexsha : String
  author_name : String
  date_utc : String
  committed_date : Nat
  parents : Nat
  stats : Option (List String)
  diff : Except String String
  api : String → String → Except String String

/-- Command-line arguments relevant to the summarization loop
(`--max-commits`, `--per-commit-budget`, `--include-merges`, `--model`).
`max_commits` is an `Int` because `argparse` accepts negative values. -/
structure Args where
  max_commits : Int
  per_commit_budget : Nat
  include_merges : Bool
  model : String

/-- Python string slicing `s[:n]`: the first `n` characters of `s`. -/
def py_slice (n : Nat) (s : String) : String :=
  ⟨s.data.take n⟩

/-- Python `s.strip()`: remove leading and trailing whitespace. -/
def py_strip (s : String) : String :=
  ⟨((s.data.dropWhile Char.isWhitespace).reverse.dropWhile
    Char.isWhitespace).reverse⟩

/-- Python string `<`: lexicographic comparison by code point. -/
def py_str_lt : List Char → List Char → Bool
  | [], [] => false
  | [], _ :: _ => true
  | _ :: _, [] => false
  | a :: as, b :: bs =>
      if a < b then true else if b < a then false else py_str_lt as bs

/-- Python string `<=`: `s <= t` iff not `t < s`. -/
def py_le (s t : String) : Bool :=
  !py_str_lt t.data s.data

/-- Python `"sep".join(xs)`. -/
def join_with (sep : String) : List String → String
  | [] => ""
  | [a] => a
  | a :: rest => a ++ sep ++ join_with sep rest

/-- `list_commits` (source lines 57–66): the walk yields `commits`
newest-first (date filters already applied by `iter_commits`); the Python
guard `if max_commits and max_commits > 0` truncates to the most recent
`max_commits`, then `commits.reverse()` flips to oldest-first. -/
def list_commits (commits : List Commit) (max_commits : Int) : List Commit :=
  let commits2 := if max_commits ≠ 0 ∧ max_commits > 0 then
    commits.take max_commits.toNat else commits
  commits2.reverse

/-- `changed_files` (source lines 85–90): `sorted(commit.stats.files.keys())`
inside `try`, `[]` on any exception (modelled by `stats = none`). Python's
`sorted` is a stable sort by `<=`, embedded as insertion sort over the
Python string order (extensionally the same list: dict keys are distinct,
and any two stable sorts by a total order agree). -/
def changed_files (c : Commit) : List String :=
  match c.stats with
  | some files => List.insertionSort (fun a b => py_le a b = true) files
  | none => []

/-- `files_display` (source line 93):
`", ".join(files[:30]) + (", …" if len(files) > 30 else "")`. -/
def files_display (files : List String) : String :=
  join_with ", " (files.take 30) ++ (if files.length > 30 then ", …" else "")

/-- The `files=` field of the user prompt (source line 99):
`files_display if files_display else "(none)"` (empty string is falsy). -/
def files_field (files : List String) : String :=
  if files_display files = "" then "(none)" else files_display files

/-- `USER_PROMPT_TMPL.format(...)` (source lines 24–31 and 94–101). -/
def user_prompt (sha author date : String) (files : List String)
    (diff : String) : String :=
  "Commit: " ++ sha ++ "\nAuthor: " ++ author ++ "\nDate (UTC): " ++ date ++
  "\nChanged files (" ++ toString files.length ++ "): " ++ files_field files ++
  "\n\nDiff (may be truncated):\n```\n" ++ diff ++ "\n```\n"

/-- `summarize` (source lines 92–111): renders the user prompt, calls the
chat-completion endpoint and strips the returned content. The endpoint call
is the `api` oracle carried by the commit. -/
def summarize (api : String → String → Except String String)
    (model sha author date_utc : String) (files : List String)
    (diff : String) : Except String String :=
  Except.map py_strip (api model (user_prompt sha author date_utc files diff))

/-- The heading appended per commit (source line 150):
`f"## \x7bdate_utc\x7d – \x60\x7bsha\x7d\x60 by \x7bauthor\x7d"`. -/
def entry_heading (date_utc sha author : String) : String :=
  "## " ++ date_utc ++ " – `" ++ sha ++ "` by " ++ author

/-- The `try:` block of the per-commit loop (source lines 135–146): extract
the diff, truncate it to the per-commit budget, `continue` (here: `none`)
when both the stripped patch and the file list are empty, otherwise call
`summarize`. Any exception escapes as `Except.error`. -/
def try_block (args : Args) (c : Commit) (sha author date_utc : String)
    (files : List String) : Except String (Option String) := do
  let patch ← c.diff
  let truncated := py_slice args.per_commit_budget patch
  if py_strip truncated = "" ∧ files = [] then
    pure none
  else do
    let s ← summarize c.api args.model sha author date_utc files truncated
    pure (some s)

/-- One iteration of the loop body of `main` (source lines 125–152):
`none` when the commit contributes no lines (merge skipped, or empty diff
and file list); otherwise the three lines appended to `out_lines` — heading,
summary (or the `except`-clause placeholder), blank separator. -/
def process_commit (args : Args) (c : Commit) : Option (List String) :=
  if c.parents > 1 ∧ args.include_merges = false then none
  else
    let sha := py_slice 7 c.hexsha
    let files := changed_files c
    match try_block args c sha c.author_name c.date_utc files with
    | Except.ok none => none
    | Except.ok (some summary) =>
        some [entry_heading c.date_utc sha c.author_name, summary, ""]
    | Except.error e =>
        some [entry_heading c.date_utc sha c.author_name,
          "⚠️ Error summarizing commit " ++ sha ++ ": " ++ e, ""]

/-- The whole summarization loop: concatenation of every commit's
contributed lines, in loop order. -/
def main_loop (args : Args) (commits : List Commit) : List String :=
  commits.flatMap (fun c => (process_commit args c).getD [])

/-- `out_lines` at the end of `main` (source lines 124–152): the
`["# Changelog", ""]` seed followed by the loop's lines, the loop running
over `list_commits`' oldest-first selection. `commits` is the raw
newest-first, date-filtered walk output. -/
def out_lines (args : Args) (commits : List Commit) : List String :=
  ["# Changelog", ""] ++ main_loop args (list_commits commits args.max_commits)

/-- The document written to the output file (source lines 154–155):
`"\n".join(out_lines)`. -/
def output_content (args : Args) (commits : List Commit) : String :=
  join_with "\n" (out_lines args commits)

/-- The commits that contribute an entry to the document, in document
order. -/
def summarized_commits (args : Args) (commits : List Commit) : List Commit :=
  (list_commits commits args.max_commits).filter
    (fun c => (process_commit args c).isSome)

/-- Outcome of `ensure_repo`: either the local repository opened in place
(after a branch checkout) or a fresh clone. The repository handle is an
abstract tag. -/
inductive RepoOutcome where
  | opened_in_place (repo : Nat)
  | cloned_fresh (repo : Nat)
deriving DecidableEq

/-- Environment for `ensure_repo` (source lines 48–55): outcomes of the two
`os.path.isdir` probes and of the three effectful git operations.
`Except.error e` models the operation raising `e`. `clone_from` stands for
`git.Repo.clone_from(repo_arg, path, branch=branch)` into a fresh temporary
directory — a clone of all branches with the requested branch checked out
(the `single_branch` keyword, git's `--single-branch`, is not passed; see
`clone_call`). -/
structure RepoEnv where
  is_dir : Bool
  has_git_dir : Bool
  open_repo : Except String Nat
  checkout_branch : Except String Unit
  clone_from : Except String Nat

/-- The keyword arguments the script passes to `git.Repo.clone_from`
(source line 55): `branch=branch` only; GitPython's `single_branch`
keyword (git's `--single-branch`) is left at its default `False`. -/
structure CloneArgs where
  branch : Option String
  single_branch : Bool
deriving DecidableEq

/-- The clone invocation at source line 55:
`git.Repo.clone_from(repo_arg, path, branch=branch)`. -/
def clone_call (branch : String) : CloneArgs :=
  { branch := some branch, single_branch := false }

/-- Git clone semantics: the clone fetches only the requested branch
exactly when `--single-branch` is passed; `--branch` alone only selects
which branch the new working tree checks out, while all branches are
fetched. -/
def clones_only_requested_branch (a : CloneArgs) : Bool :=
  a.single_branch

/-- `ensure_repo` (source lines 48–55): open in place and checkout if the
location is a local directory with a `.git` subdirectory, otherwise clone
the repository (checking out the requested branch) into a fresh temporary
directory; every failure propagates, nothing is retried. -/
def ensure_repo (env : RepoEnv) : Except String RepoOutcome :=
  if env.is_dir ∧ env.has_git_dir then do
    let r ← env.open_repo
    let _ ← env.checkout_branch
    pure (RepoOutcome.opened_in_place r)
  else do
    let r ← env.clone_from
    pure (RepoOutcome.cloned_fresh r)

/-! ### Sample data used by the witness theorems -/

/-- A sample non-merge commit with well-behaved effects, parameterised by its
timestamp. -/
def sample_commit (n : Nat) : Commit :=
  { hexsha := "0123456789abcdef"
    author_name := "alice"
    date_utc := "2024-01-01"
    committed_date := n
    parents := 1
    stats := some ["b.txt", "a.txt"]
    diff := Except.ok "+ new line"
    api := fun _ _ => Except.ok " - did things " }

/-- Sample arguments: limit 1 commit, default budget, merges skipped. -/
def sample_args : Args :=
  { max_commits := 1
    per_commit_budget := 8000
    include_merges := false
    model := "gpt-4o-mini" }

/-! ### Claims -/

/-- C9: `list_commits` truncates only for a strictly positive
`max_commits`; for every value ≤ 0 (0 as documented, but also any negative
value) it returns the whole date-filtered range, merely reversed to
oldest-first. -/
theorem list_commits_nonpositive_no_truncation (commits : List Commit) (m : Int) :
    (m ≤ 0 → list_commits commits m = commits.reverse) ∧
    (0 < m → list_commits commits m = (commits.take m.toNat).reverse) := by
  constructor
  · intro h
    unfold list_commits
    rw [if_neg]
    rintro ⟨-, h2⟩
    omega
  · intro h
    unfold list_commits
    rw [if_pos ⟨by omega, h⟩]

/-- C9 witness: with `max_commits = -2` nothing is truncated. -/
theorem list_commits_nonpositive_no_truncation_witness :
    (-2 : Int) ≤ 0 ∧
    list_commits [sample_commit 1, sample_commit 0] (-2) =
      [sample_commit 1, sample_commit 0].reverse :=
  ⟨by decide,
    (list_commits_nonpositive_no_truncation [sample_commit 1, sample_commit 0]
      (-2)).1 (by decide)⟩

/-- C3: the diff string passed on to the summarizer is `patch[:B]`: length
exactly `B` when the raw diff is longer than the budget `B`, the raw diff
unchanged when its length is at most `B`. -/
theorem diff_budget_truncation (B : Nat) (d : String) :
    (B < d.length → (py_slice B d).length = B) ∧
    (d.length ≤ B → py_slice B d = d) := by
  constructor
  · intro h
    show (d.data.take B).length = B
    rw [List.length_take]
    exact Nat.min_eq_left (Nat.le_of_lt h)
  · intro h
    show (⟨d.data.take B⟩ : String) = d
    rw [List.take_of_length_le h]

/-- C3 witness: a 8-character diff against a budget of 4. -/
theorem diff_budget_truncation_witness :
    4 < ("+a\n-b\n+c".length) ∧ (py_slice 4 "+a\n-b\n+c").length = 4 :=
  ⟨by decide, (diff_budget_truncation 4 "+a\n-b\n+c").1 (by decide)⟩

/-- C4: the rendered file list shows exactly the first 30 names followed by
the ellipsis marker when more than 30 files changed, and all names with no
ellipsis otherwise. -/
theorem file_list_rendering (files : List String) :
    (30 < files.length →
      files_display files = join_with ", " (files.take 30) ++ ", …" ∧
      (files.take 30).length = 30) ∧
    (files.length ≤ 30 →
      files_display files = join_with ", " files) := by
  constructor
  · intro h
    refine ⟨?_, ?_⟩
    · unfold files_display
      rw [if_pos h]
    · rw [List.length_take]
      exact Nat.min_eq_left (Nat.le_of_lt h)
  · intro h
    unfold files_display
    rw [if_neg (by omega), List.take_of_length_le h]
    simp

/-- C4 witness: a two-entry file list is rendered whole, without
ellipsis. -/
theorem file_list_rendering_witness :
    (["a.txt", "b.txt"] : List String).length ≤ 30 ∧
    files_display ["a.txt", "b.txt"] = join_with ", " ["a.txt", "b.txt"] :=
  ⟨by decide, (file_list_rendering ["a.txt", "b.txt"]).2 (by decide)⟩

/-- C5: a commit with two or more parents contributes nothing unless
`--include-merges` is set; with the flag set it is processed exactly like
the same commit with a single parent. -/
theorem merge_commit_skipped_unless_included (args : Args) (c : Commit)
    (h : 2 ≤ c.parents) :
    (args.include_merges = false → process_commit args c = none) ∧
    (args.include_merges = true →
      process_commit args c = process_commit args { c with parents := 1 }) := by
  obtain ⟨hex, an, du, cd, pa, st, df, ap⟩ := c
  constructor
  · intro hf
    unfold process_commit
    rw [if_pos ⟨by simpa using h, hf⟩]
  · intro ht
    unfold process_commit
    rw [if_neg (by simp [ht]), if_neg (by simp [ht])]
    rfl

/-- C5 witness: a 2-parent commit is dropped when merges are not
included. -/
theorem merge_commit_skipped_unless_included_witness :
    2 ≤ ({ sample_commit 3 with parents := 2 } : Commit).parents ∧
    sample_args.include_merges = false ∧
    process_commit sample_args { sample_commit 3 with parents := 2 } = none :=
  ⟨by decide, rfl,
    (merge_commit_skipped_unless_included sample_args
      { sample_commit 3 with parents := 2 } (by decide)).1 rfl⟩

/-- A commit whose diff extraction raises, for the witness theorems. -/
def sample_err_commit : Commit :=
  { hexsha := "deadbeef0042"
    author_name := "bob"
    date_utc := "2024-02-02"
    committed_date := 7
    parents := 1
    stats := some ["x.txt"]
    diff := Except.error "git failed"
    api := fun _ _ => Except.ok "fine" }

/-- C1: with a positive `--max-commits` limit `N`, at most `N` commits
contribute entries, and — assuming the walk yields strictly
newest-first timestamps — the contributing commits appear in the document
in strictly oldest-to-newest order. -/
theorem commit_limit_and_chronological_order (args : Args)
    (commits : List Commit) (hN : 0 < args.max_commits)
    (hsorted : List.Pairwise
      (fun a b => b.committed_date < a.committed_date) commits) :
    ((summarized_commits args commits).length : Int) ≤ args.max_commits ∧
    List.Pairwise (fun a b => a.committed_date < b.committed_date)
      (summarized_commits args commits) := by
  have hsel : list_commits commits args.max_commits
      = (commits.take args.max_commits.toNat).reverse := by
    unfold list_commits
    rw [if_pos ⟨by omega, hN⟩]
  constructor
  · have h1 : (summarized_commits args commits).length ≤ args.max_commits.toNat := by
      unfold summarized_commits
      rw [hsel]
      calc ((commits.take args.max_commits.toNat).reverse.filter
            (fun c => (process_commit args c).isSome)).length
          ≤ (commits.take args.max_commits.toNat).reverse.length :=
            (List.filter_sublist _).length_le
        _ = (commits.take args.max_commits.toNat).length :=
            List.length_reverse _
        _ ≤ args.max_commits.toNat := List.length_take_le _ _
    calc ((summarized_commits args commits).length : Int)
        ≤ (args.max_commits.toNat : Int) := by exact_mod_cast h1
      _ = args.max_commits := Int.toNat_of_nonneg (le_of_lt hN)
  · unfold summarized_commits
    rw [hsel]
    apply List.Pairwise.sublist (List.filter_sublist _)
    rw [List.pairwise_reverse]
    exact List.Pairwise.sublist (List.take_sublist _ _) hsorted

/-- C1 witness: limit 1 on a strictly newest-first two-commit history. -/
theorem commit_limit_and_chronological_order_witness :
    0 < sample_args.max_commits ∧
    List.Pairwise (fun a b => b.committed_date < a.committed_date)
      [sample_commit 5, sample_commit 3] ∧
    (((summarized_commits sample_args
        [sample_commit 5, sample_commit 3]).length : Int) ≤
      sample_args.max_commits ∧
    List.Pairwise (fun a b => a.committed_date < b.committed_date)
      (summarized_commits sample_args [sample_commit 5, sample_commit 3])) :=
  ⟨by decide, by decide,
    commit_limit_and_chronological_order sample_args
      [sample_commit 5, sample_commit 3] (by decide) (by decide)⟩

/-- C2: a per-commit exception (diff extraction or summarization) is turned
into the placeholder line carrying the 7-character short hash and the error
text, the entry is still emitted, and surrounding commits are processed
exactly as they would be on their own. -/
theorem per_commit_error_yields_placeholder (args : Args) (c : Commit)
    (e : String) (l1 l2 : List Commit)
    (hm : ¬(c.parents > 1 ∧ args.include_merges = false))
    (herr : try_block args c (py_slice 7 c.hexsha) c.author_name c.date_utc
      (changed_files c) = Except.error e) :
    process_commit args c =
      some [entry_heading c.date_utc (py_slice 7 c.hexsha) c.author_name,
        "⚠️ Error summarizing commit " ++ py_slice 7 c.hexsha ++ ": " ++ e,
        ""] ∧
    main_loop args (l1 ++ c :: l2) =
      main_loop args l1 ++
        [entry_heading c.date_utc (py_slice 7 c.hexsha) c.author_name,
          "⚠️ Error summarizing commit " ++ py_slice 7 c.hexsha ++ ": " ++ e,
          ""] ++
        main_loop args l2 := by
  have h1 : process_commit args c =
      some [entry_heading c.date_utc (py_slice 7 c.hexsha) c.author_name,
        "⚠️ Error summarizing commit " ++ py_slice 7 c.hexsha ++ ": " ++ e,
        ""] := by
    simp only [process_commit]
    rw [if_neg hm, herr]
  refine ⟨h1, ?_⟩
  unfold main_loop
  rw [List.flatMap_append, List.flatMap_cons, h1, List.append_assoc]
  rfl

/-- C2 witness: a commit whose diff extraction raises `"git failed"` gets a
placeholder entry while its successor is processed normally. -/
theorem per_commit_error_yields_placeholder_witness :
    ¬(sample_err_commit.parents > 1 ∧ sample_args.include_merges = false) ∧
    try_block sample_args sample_err_commit (py_slice 7 sample_err_commit.hexsha)
      sample_err_commit.author_name sample_err_commit.date_utc
      (changed_files sample_err_commit) = Except.error "git failed" ∧
    (process_commit sample_args sample_err_commit =
      some [entry_heading sample_err_commit.date_utc
          (py_slice 7 sample_err_commit.hexsha) sample_err_commit.author_name,
        "⚠️ Error summarizing commit " ++ py_slice 7 sample_err_commit.hexsha ++
          ": " ++ "git failed", ""] ∧
    main_loop sample_args ([] ++ sample_err_commit :: [sample_commit 0]) =
      main_loop sample_args [] ++
        [entry_heading sample_err_commit.date_utc
            (py_slice 7 sample_err_commit.hexsha) sample_err_commit.author_name,
          "⚠️ Error summarizing commit " ++ py_slice 7 sample_err_commit.hexsha ++
            ": " ++ "git failed", ""] ++
        main_loop sample_args [sample_commit 0]) :=
  ⟨by decide, rfl,
    per_commit_error_yields_placeholder sample_args sample_err_commit
      "git failed" [] [sample_commit 0] (by decide) rfl⟩

/-- When diff extraction succeeds, the `try` block reduces to the
empty-check followed by the summarization call. -/
theorem try_block_diff_ok (args : Args) (c : Commit)
    (sha author date_utc : String) (files : List String) (d : String)
    (hd : c.diff = Except.ok d) :
    try_block args c sha author date_utc files =
      if py_strip (py_slice args.per_commit_budget d) = "" ∧ files = [] then
        Except.ok none
      else
        Except.bind (summarize c.api args.model sha author date_utc files
          (py_slice args.per_commit_budget d)) (fun s => Except.ok (some s)) := by
  unfold try_block
  rw [hd]
  rfl

/-- When diff extraction raises, the `try` block raises. -/
theorem try_block_diff_error (args : Args) (c : Commit)
    (sha author date_utc : String) (files : List String) (e : String)
    (hd : c.diff = Except.error e) :
    try_block args c sha author date_utc files = Except.error e := by
  unfold try_block
  rw [hd]
  rfl

/-- C6: a non-merge commit whose truncated, whitespace-stripped diff is
empty and whose file list is empty is skipped — no entry, and the
summarization endpoint is irrelevant (never consulted: the outcome is the
same for every endpoint behaviour); if either is non-empty, an entry is
produced (real summary or placeholder). -/
theorem empty_commit_no_entry (args : Args) (c : Commit) (d : String)
    (hm : ¬(c.parents > 1 ∧ args.include_merges = false))
    (hd : c.diff = Except.ok d) :
    (py_strip (py_slice args.per_commit_budget d) = "" → changed_files c = [] →
      ∀ api2, process_commit args { c with api := api2 } = none) ∧
    (¬(py_strip (py_slice args.per_commit_budget d) = "" ∧ changed_files c = []) →
      (process_commit args c).isSome = true) := by
  obtain ⟨hex, an, du, cd, pa, st, df, ap⟩ := c
  simp only at hd hm
  subst hd
  constructor
  · intro h1 h2 api2
    simp only [changed_files] at h2
    simp only [process_commit]
    rw [if_neg (by simpa using hm)]
    rw [try_block_diff_ok args _ _ _ _ _ d rfl]
    rw [if_pos ⟨h1, by simpa [changed_files] using h2⟩]
  · intro hne
    simp only [process_commit]
    rw [if_neg (by simpa using hm)]
    rw [try_block_diff_ok args _ _ _ _ _ d rfl]
    rw [if_neg (by simpa [changed_files] using hne)]
    rcases hs : summarize ap args.model (py_slice 7 hex) an du
        (changed_files ⟨hex, an, du, cd, pa, st, Except.ok d, ap⟩)
        (py_slice args.per_commit_budget d) with e | s
    · rfl
    · rfl

/-- A commit with an empty diff and empty file list, for the witness
theorems. -/
def sample_empty_commit : Commit :=
  { hexsha := "cafebabe1234"
    author_name := "carol"
    date_utc := "2024-03-03"
    committed_date := 9
    parents := 1
    stats := some []
    diff := Except.ok ""
    api := fun _ _ => Except.ok "unused" }

/-- C6 witness: an empty commit is skipped even when the endpoint would
fail. -/
theorem empty_commit_no_entry_witness :
    ¬(sample_empty_commit.parents > 1 ∧ sample_args.include_merges = false) ∧
    sample_empty_commit.diff = Except.ok "" ∧
    py_strip (py_slice sample_args.per_commit_budget "") = "" ∧
    changed_files sample_empty_commit = [] ∧
    process_commit sample_args
      { sample_empty_commit with api := fun _ _ => Except.error "down" } =
      none :=
  ⟨by decide, rfl, by decide, by decide,
    (empty_commit_no_entry sample_args sample_empty_commit ""
      (by decide) rfl).1 (by decide) (by decide) _⟩

/-- C7 counterexample: the clone at source line 55 passes `branch=` but
not `single_branch=`, so the remote-location path does not clone only the
requested branch — it fetches all branches and merely checks out the
requested one. -/
theorem ensure_repo_not_single_branch :
    clones_only_requested_branch (clone_call "main") = false :=
  rfl

/-- C7 (amended): `ensure_repo` opens an existing local repository (a
directory with a `.git` subdirectory) in place and checks out the
requested branch, otherwise clones the repository into a fresh temporary
directory with the requested branch checked out (all branches fetched, as
the clone invocation is not single-branch); open, checkout and clone
failures each propagate unchanged, with no retry and no fallback to the
other branch of the dichotomy. -/
theorem ensure_repo_amended_contract (env : RepoEnv) :
    (env.is_dir = true → env.has_git_dir = true →
      (∀ e, env.open_repo = Except.error e →
        ensure_repo env = Except.error e) ∧
      (∀ r, env.open_repo = Except.ok r →
        (∀ e, env.checkout_branch = Except.error e →
          ensure_repo env = Except.error e) ∧
        (env.checkout_branch = Except.ok () →
          ensure_repo env = Except.ok (RepoOutcome.opened_in_place r)))) ∧
    ((env.is_dir = false ∨ env.has_git_dir = false) →
      ensure_repo env = Except.map RepoOutcome.cloned_fresh env.clone_from) ∧
    (∀ branch, clones_only_requested_branch (clone_call branch) = false) := by
  obtain ⟨isd, hgd, op, co, cl⟩ := env
  simp only
  refine ⟨?_, ?_, ?_⟩
  · intro h1 h2
    subst h1
    subst h2
    constructor
    · intro e he
      subst he
      unfold ensure_repo
      rw [if_pos ⟨rfl, rfl⟩]
      rfl
    · intro r hr
      subst hr
      constructor
      · intro e he
        subst he
        unfold ensure_repo
        rw [if_pos ⟨rfl, rfl⟩]
        rfl
      · intro hco
        subst hco
        unfold ensure_repo
        rw [if_pos ⟨rfl, rfl⟩]
        rfl
  · intro h
    unfold ensure_repo
    rw [if_neg (by rcases h with h | h <;> simp [h])]
    rcases cl with e | r
    · rfl
    · rfl
  · intro branch
    rfl

/-- A repository environment where the location is a valid local checkout
and every git operation succeeds, for the witness theorem. -/
def sample_env : RepoEnv :=
  { is_dir := true
    has_git_dir := true
    open_repo := Except.ok 1
    checkout_branch := Except.ok ()
    clone_from := Except.ok 2 }

/-- C7 witness: a local repository directory is opened in place and the
branch checked out; the clone invocation is never single-branch. -/
theorem ensure_repo_amended_contract_witness :
    sample_env.is_dir = true ∧ sample_env.has_git_dir = true ∧
    sample_env.open_repo = Except.ok 1 ∧
    sample_env.checkout_branch = Except.ok () ∧
    ensure_repo sample_env = Except.ok (RepoOutcome.opened_in_place 1) ∧
    clones_only_requested_branch (clone_call "master") = false :=
  ⟨rfl, rfl, rfl, rfl,
    (((ensure_repo_amended_contract sample_env).1 rfl rfl).2 1 rfl).2 rfl,
    (ensure_repo_amended_contract sample_env).2.2 "master"⟩

/-- C8: the document is the accumulated lines joined with newlines; it
begins with the top-level `# Changelog` heading, and every commit that
contributes an entry contributes exactly a level-2 heading of the form
`## date – \x60shorthash\x60 by author`, its summary text, and a blank
separator line. -/
theorem output_document_structure (args : Args) (commits : List Commit) :
    (∃ t, output_content args commits = "# Changelog\n" ++ t) ∧
    (∀ c lines, process_commit args c = some lines →
      ∃ s, lines = ["## " ++ c.date_utc ++ " – `" ++ py_slice 7 c.hexsha ++
        "` by " ++ c.author_name, s, ""]) := by
  constructor
  · refine ⟨join_with "\n"
      ("" :: main_loop args (list_commits commits args.max_commits)), ?_⟩
    show join_with "\n" ("# Changelog" :: "" ::
      main_loop args (list_commits commits args.max_commits)) = _
    rfl
  · intro c lines h
    by_cases hm : c.parents > 1 ∧ args.include_merges = false
    · rw [process_commit, if_pos hm] at h
      exact absurd h (by simp)
    · simp only [process_commit] at h
      rw [if_neg hm] at h
      rcases ht : try_block args c (py_slice 7 c.hexsha) c.author_name
          c.date_utc (changed_files c) with e | o
      · rw [ht] at h
        exact ⟨"⚠️ Error summarizing commit " ++ py_slice 7 c.hexsha ++
          ": " ++ e, (Option.some.inj h).symm⟩
      · rcases o with _ | s
        · rw [ht] at h
          exact absurd h (by simp)
        · rw [ht] at h
          exact ⟨s, (Option.some.inj h).symm⟩

/-- C8 witness: a one-commit run — the document starts with the heading and
the commit's entry has the heading/summary/blank shape. -/
theorem output_document_structure_witness :
    process_commit sample_args (sample_commit 0) =
      some ["## 2024-01-01 – `0123456` by alice", "- did things", ""] ∧
    (∃ t, output_content sample_args [sample_commit 0] = "# Changelog\n" ++ t) ∧
    (∃ s, ["## 2024-01-01 – `0123456` by alice", "- did things", ""] =
      ["## " ++ (sample_commit 0).date_utc ++ " – `" ++
        py_slice 7 (sample_commit 0).hexsha ++ "` by " ++
        (sample_commit 0).author_name, s, ""]) :=
  ⟨by decide,
    (output_document_structure sample_args [sample_commit 0]).1,
    (output_document_structure sample_args [sample_commit 0]).2
      (sample_commit 0) _ (by decide)⟩

/-- The Python lexicographic `<` on code-point lists coincides with the
lexicographic order on `List Char`. -/
theorem py_str_lt_iff (l₁ l₂ : List Char) :
    py_str_lt l₁ l₂ = true ↔ List.Lex (· < ·) l₁ l₂ := by
  induction l₁ generalizing l₂ with
  | nil =>
    cases l₂ with
    | nil =>
      constructor
      · intro h
        simp [py_str_lt] at h
      · intro h
        cases h
    | cons b bs =>
      simp only [py_str_lt]
      exact ⟨fun _ => List.Lex.nil, fun _ => trivial⟩
  | cons a as ih =>
    cases l₂ with
    | nil =>
      constructor
      · intro h
        simp [py_str_lt] at h
      · intro h
        cases h
    | cons b bs =>
      simp only [py_str_lt]
      by_cases h1 : a < b
      · rw [if_pos h1]
        exact ⟨fun _ => List.Lex.rel h1, fun _ => rfl⟩
      · rw [if_neg h1]
        by_cases h2 : b < a
        · rw [if_pos h2]
          constructor
          · intro h
            exact absurd h (by simp)
          · intro h
            cases h with
            | cons _ => exact absurd h2 (lt_irrefl a)
            | rel hab => exact absurd hab h1
        · rw [if_neg h2]
          rw [ih bs]
          have hab : a = b := le_antisymm (not_lt.mp h2) (not_lt.mp h1)
          subst hab
          constructor
          · intro h
            exact List.Lex.cons h
          · intro h
            cases h with
            | cons h => exact h
            | rel hab => exact absurd hab h1

/-- The Python string `<=` coincides with `≤` on `String`. -/
theorem py_le_iff (s t : String) : py_le s t = true ↔ s ≤ t := by
  have h2 : t < s ↔ List.Lex (· < ·) t.data s.data := String.lt_iff_toList_lt
  have h3 : py_le s t = true ↔ ¬ py_str_lt t.data s.data = true := by
    simp [py_le]
  rw [h3, py_str_lt_iff]
  exact (not_congr h2).symm

/-- C10: `changed_files` is total — `[]` on a stats failure, otherwise the
file paths sorted ascending lexicographically (a permutation of the keys) —
and a stats failure alone never produces a placeholder entry: with the diff
and the endpoint succeeding, the entry is the real summary, and the prompt's
file field reads `(none)`. -/
theorem changed_files_total_sorted_no_placeholder (c : Commit) :
    List.Pairwise (fun a b : String => a ≤ b) (changed_files c) ∧
    (c.stats = none → changed_files c = []) ∧
    (∀ fs, c.stats = some fs → (changed_files c).Perm fs) ∧
    (c.stats = none → files_field (changed_files c) = "(none)") ∧
    (∀ args d s, c.stats = none → c.diff = Except.ok d →
      py_strip (py_slice args.per_commit_budget d) ≠ "" →
      ¬(c.parents > 1 ∧ args.include_merges = false) →
      c.api = (fun _ _ => Except.ok s) →
      process_commit args c =
        some [entry_heading c.date_utc (py_slice 7 c.hexsha) c.author_name,
          py_strip s, ""]) := by
  haveI hTot : IsTotal String (fun a b => py_le a b = true) :=
    ⟨fun a b => by
      rcases le_total a b with h | h
      · exact Or.inl ((py_le_iff a b).mpr h)
      · exact Or.inr ((py_le_iff b a).mpr h)⟩
  haveI hTrans : IsTrans String (fun a b => py_le a b = true) :=
    ⟨fun a b c h1 h2 => (py_le_iff a c).mpr
      (le_trans ((py_le_iff a b).mp h1) ((py_le_iff b c).mp h2))⟩
  refine ⟨?_, ?_, ?_, ?_, ?_⟩
  · rcases hst : c.stats with - | fs
    · rw [show changed_files c = [] from by simp [changed_files, hst]]
      exact List.Pairwise.nil
    · rw [show changed_files c =
        List.insertionSort (fun a b => py_le a b = true) fs from by
          simp [changed_files, hst]]
      exact (List.sorted_insertionSort _ fs).imp (fun h => (py_le_iff _ _).mp h)
  · intro hst
    simp [changed_files, hst]
  · intro fs hst
    rw [show changed_files c =
      List.insertionSort (fun a b => py_le a b = true) fs from by
        simp [changed_files, hst]]
    exact List.perm_insertionSort _ fs
  · intro hst
    rw [show changed_files c = [] from by simp [changed_files, hst]]
    decide
  · intro args d s hst hd hne hm hapi
    obtain ⟨hex, an, du, cd, pa, st, df, ap⟩ := c
    simp only at hst hd hapi hm
    subst hst
    subst hd
    subst hapi
    simp only [process_commit]
    rw [if_neg (by simpa using hm)]
    rw [try_block_diff_ok args _ _ _ _ _ d rfl]
    rw [if_neg (fun h => hne h.1)]
    rfl

/-- A commit whose stats access raises but whose diff and summarization
succeed, for the witness theorem. -/
def sample_nostat_commit : Commit :=
  { hexsha := "0042aabbccdd"
    author_name := "dave"
    date_utc := "2024-04-04"
    committed_date := 11
    parents := 1
    stats := none
    diff := Except.ok "+x"
    api := fun _ _ => Except.ok " S " }

/-- C10 witness: a stats failure yields an empty, `(none)`-rendered file
list and still a real summary entry. -/
theorem changed_files_total_sorted_no_placeholder_witness :
    sample_nostat_commit.stats = none ∧
    changed_files sample_nostat_commit = [] ∧
    files_field (changed_files sample_nostat_commit) = "(none)" ∧
    process_commit sample_args sample_nostat_commit =
      some [entry_heading sample_nostat_commit.date_utc
          (py_slice 7 sample_nostat_commit.hexsha)
          sample_nostat_commit.author_name,
        py_strip " S ", ""] :=
  ⟨rfl,
    (changed_files_total_sorted_no_placeholder sample_nostat_commit).2.1 rfl,
    (changed_files_total_sorted_no_placeholder sample_nostat_commit).2.2.2.1 rfl,
    (changed_files_total_sorted_no_placeholder sample_nostat_commit).2.2.2.2
      sample_args "+x" " S " rfl rfl (by decide) (by decide) rfl⟩
